import Mathlib

/-!
Verification of the network-configuration subsystem of incus-os.

The definitions below are a shallow embedding of the Go `systemd` package
(network artifact generation, apply sequence, convergence wait) and of the
REST network handler. Generated file contents are modelled as lists of
lines: every piece the Go code appends to its accumulating string ends in
a newline, so the Go string equals the lines joined with a newline each.
-/

/-- A given filename and its contents (`networkdConfigFile` in the source);
contents are modelled as the list of lines of the generated file. -/
structure networkdConfigFile where
  Name : String
  Contents : List String
deriving DecidableEq, Inhabited

/-- Route entry of the configuration (`api.SystemNetworkRoute`): destination
CIDR and gateway (literal or reserved token). -/
structure SystemNetworkRoute where
  To : String
  Via : String
deriving DecidableEq, Inhabited

/-- Physical interface entry of the configuration. -/
structure SystemNetworkInterface where
  Name : String
  Hwaddr : String
  MTU : Nat
  VLAN : Nat
  LLDP : Bool
  Addresses : List String
  Routes : List SystemNetworkRoute
deriving DecidableEq, Inhabited

/-- Bond entry of the configuration. -/
structure SystemNetworkBond where
  Name : String
  Hwaddr : String
  MTU : Nat
  VLAN : Nat
  LLDP : Bool
  Mode : String
  Members : List String
  Addresses : List String
  Routes : List SystemNetworkRoute
deriving DecidableEq, Inhabited

/-- VLAN entry of the configuration. -/
structure SystemNetworkVLAN where
  Name : String
  Parent : String
  ID : Nat
  MTU : Nat
  Addresses : List String
  Routes : List SystemNetworkRoute
deriving DecidableEq, Inhabited

/-- DNS block of the configuration. -/
structure SystemNetworkDNS where
  Hostname : String
  Domain : String
  SearchDomains : List String
  Nameservers : List String
deriving DecidableEq, Inhabited

/-- NTP block of the configuration. -/
structure SystemNetworkNTP where
  Timeservers : List String
deriving DecidableEq, Inhabited

/-- Root network configuration (`api.SystemNetworkConfig`). The proxy block
is opaque key/value pairs; it is only handed to the environment capability. -/
structure SystemNetworkConfig where
  Interfaces : List SystemNetworkInterface
  Bonds : List SystemNetworkBond
  VLANs : List SystemNetworkVLAN
  DNS : Option SystemNetworkDNS
  NTP : Option SystemNetworkNTP
  Proxy : Option (List (String × String))
deriving DecidableEq, Inhabited

/-- The transform `strings.ToLower(strings.ReplaceAll(hwaddr, ":", ""))` used
on every hardware address: replacing each single-character pattern ":" by the
empty string removes exactly the colons, then every character is lowercased. -/
def stripColonsToLower (s : String) : String :=
  String.mk ((s.data.filter (fun c => c ≠ ':')).map Char.toLower)

/-- `generateLinkFileContents`: one `00-` link artifact per interface binding
the stable name to the permanent MAC, and one `01-` link artifact per bond
member. -/
def generateLinkFileContents (networkCfg : SystemNetworkConfig) : List networkdConfigFile :=
  (networkCfg.Interfaces.map fun i =>
    let strippedHwaddr := stripColonsToLower i.Hwaddr
    { Name := "00-en" ++ strippedHwaddr ++ ".link"
      Contents := ["[Match]", "PermanentMACAddress=" ++ i.Hwaddr, "",
                   "[Link]", "NamePolicy=", "Name=en" ++ strippedHwaddr] })
  ++ (networkCfg.Bonds.flatMap fun b =>
    b.Members.map fun member =>
      let strippedHwaddr := stripColonsToLower member
      { Name := "01-en" ++ strippedHwaddr ++ ".link"
        Contents := ["[Match]", "PermanentMACAddress=" ++ member, "",
                     "[Link]", "NamePolicy=", "Name=en" ++ strippedHwaddr] })

/-- Per-interface `10-` netdev artifact: a VLAN-filtering bridge named after
the interface. -/
def interfaceNetdevFile (i : SystemNetworkInterface) : networkdConfigFile :=
  let strippedHwaddr := stripColonsToLower i.Hwaddr
  let mtuString := if i.MTU ≠ 0 then "MTUBytes=" ++ toString i.MTU else ""
  { Name := "10-br" ++ strippedHwaddr ++ ".netdev"
    Contents := ["[NetDev]", "Name=" ++ i.Name, "Kind=bridge",
                 "MACAddress=" ++ i.Hwaddr, mtuString, "",
                 "[Bridge]", "VLANFiltering=true"] }

/-- Per-bond `11-` netdev artifacts: the bond device, then a VLAN-filtering
bridge on top of it. -/
def bondNetdevFiles (b : SystemNetworkBond) : List networkdConfigFile :=
  let strippedHwaddr := stripColonsToLower b.Hwaddr
  let mtuString := if b.MTU ≠ 0 then "MTUBytes=" ++ toString b.MTU else ""
  [{ Name := "11-bn" ++ strippedHwaddr ++ ".netdev"
     Contents := ["[NetDev]", "Name=bn" ++ strippedHwaddr, "Kind=bond",
                  "MACAddress=" ++ b.Hwaddr, mtuString, "",
                  "[Bond]", "Mode=" ++ b.Mode] },
   { Name := "11-br" ++ strippedHwaddr ++ ".netdev"
     Contents := ["[NetDev]", "Name=" ++ b.Name, "Kind=bridge",
                  "MACAddress=" ++ b.Hwaddr, mtuString, "",
                  "[Bridge]", "VLANFiltering=true"] }]

/-- Per-VLAN `12-` netdev artifact: the VLAN device, whose declared device
name is "vl" prepended to the configured name. -/
def vlanNetdevFile (v : SystemNetworkVLAN) : networkdConfigFile :=
  let mtuString := if v.MTU ≠ 0 then "MTUBytes=" ++ toString v.MTU else ""
  { Name := "12-vl" ++ v.Name ++ ".netdev"
    Contents := ["[NetDev]", "Name=vl" ++ v.Name, "Kind=vlan", mtuString, "",
                 "[VLAN]", "Id=" ++ toString v.ID] }

/-- `generateNetdevFileContents`: bridge per interface, bond plus bridge per
bond, VLAN device per VLAN. -/
def generateNetdevFileContents (networkCfg : SystemNetworkConfig) : List networkdConfigFile :=
  networkCfg.Interfaces.map interfaceNetdevFile
  ++ networkCfg.Bonds.flatMap bondNetdevFiles
  ++ networkCfg.VLANs.map vlanNetdevFile

/-- `generateNetworkSectionContents`: search domains, nameservers and time
servers appended inside the `[Network]` block. -/
def generateNetworkSectionContents (dns : Option SystemNetworkDNS)
    (ntp : Option SystemNetworkNTP) : List String :=
  (match dns with
   | none => []
   | some d =>
     (if d.SearchDomains.length > 0
      then ["Domains=" ++ String.intercalate " " d.SearchDomains] else [])
     ++ d.Nameservers.map (fun ns => "DNS=" ++ ns))
  ++ (match ntp with
     | none => []
     | some n => n.Timeservers.map (fun ts => "NTP=" ++ ts))

/-- Loop state of `processAddresses`: the three reserved-token flags plus the
lines emitted so far. -/
structure AddrState where
  hasDHCP4 : Bool
  hasDHCP6 : Bool
  acceptIPv6RA : Bool
  lines : List String
deriving DecidableEq

/-- One iteration of the `processAddresses` loop: the reserved tokens set
their flag, any other token is emitted verbatim as an Address= line. -/
def addrStep (st : AddrState) (addr : String) : AddrState :=
  if addr = "dhcp4" then { st with hasDHCP4 := true }
  else if addr = "dhcp6" then { st with hasDHCP6 := true }
  else if addr = "slaac" then { st with acceptIPv6RA := true }
  else { st with lines := st.lines ++ ["Address=" ++ addr] }

/-- `processAddresses`: link-local header, the token loop, then the
IPv6AcceptRA line and the DHCP line selected by the collected flags. -/
def processAddresses (addresses : List String) : List String :=
  let header :=
    if addresses.length ≠ 0 then ["LinkLocalAddressing=ipv6"]
    else ["LinkLocalAddressing=no", "ConfigureWithoutCarrier=yes"]
  let st := addresses.foldl addrStep
    { hasDHCP4 := false, hasDHCP6 := false, acceptIPv6RA := false, lines := header }
  let withRA := st.lines ++
    [if st.acceptIPv6RA then "IPv6AcceptRA=true" else "IPv6AcceptRA=false"]
  if st.hasDHCP4 && st.hasDHCP6 then withRA ++ ["DHCP=yes"]
  else if st.hasDHCP4 then withRA ++ ["DHCP=ipv4"]
  else if st.hasDHCP6 then withRA ++ ["DHCP=ipv6"]
  else withRA

/-- `processRoutes`: the `[Route]` block; each route contributes a Gateway
line (with the reserved via tokens translated) then a Destination line. -/
def processRoutes (routes : List SystemNetworkRoute) : List String :=
  "" :: "[Route]" ::
    routes.foldl (fun acc route =>
      acc ++ [(if route.Via = "dhcp4" then "Gateway=_dhcp4"
               else if route.Via = "slaac" then "Gateway=_ipv6ra"
               else "Gateway=" ++ route.Via),
              "Destination=" ++ route.To]) []

/-- Per-interface `20-` network artifact: match on the interface name, fixed
`[DHCP]` block, `[Network]` block with DNS/NTP, addresses, optional routes
and optional `[BridgeVLAN]` trunking block. -/
def interfaceNetworkFile (dns : Option SystemNetworkDNS) (ntp : Option SystemNetworkNTP)
    (i : SystemNetworkInterface) : networkdConfigFile :=
  { Name := "20-" ++ i.Name ++ ".network"
    Contents :=
      ["[Match]", "Name=" ++ i.Name, "",
       "[DHCP]", "ClientIdentifier=mac", "RouteMetric=100", "UseMTU=true", "",
       "[Network]"]
      ++ generateNetworkSectionContents dns ntp
      ++ processAddresses i.Addresses
      ++ (if i.Routes.length > 0 then processRoutes i.Routes else [])
      ++ (if i.VLAN ≠ 0
          then ["", "[BridgeVLAN]", "VLAN=1-4094", "PVID=" ++ toString i.VLAN]
          else []) }

/-- Per-interface `20-br` network artifact binding the raw link into the
bridge, carrying the LLDP policy. -/
def interfaceBridgeNetworkFile (i : SystemNetworkInterface) : networkdConfigFile :=
  let strippedHwaddr := stripColonsToLower i.Hwaddr
  { Name := "20-br" ++ strippedHwaddr ++ ".network"
    Contents := ["[Match]", "Name=en" ++ strippedHwaddr, "",
                 "[Network]", "Bridge=" ++ i.Name,
                 "LLDP=" ++ (if i.LLDP then "true" else "false"),
                 "EmitLLDP=" ++ (if i.LLDP then "true" else "false")] }

/-- Per-bond `21-` network artifact (addressing), same layout as the
per-interface one. -/
def bondNetworkFile (dns : Option SystemNetworkDNS) (ntp : Option SystemNetworkNTP)
    (b : SystemNetworkBond) : networkdConfigFile :=
  { Name := "21-" ++ b.Name ++ ".network"
    Contents :=
      ["[Match]", "Name=" ++ b.Name, "",
       "[DHCP]", "ClientIdentifier=mac", "RouteMetric=100", "UseMTU=true", "",
       "[Network]"]
      ++ generateNetworkSectionContents dns ntp
      ++ processAddresses b.Addresses
      ++ (if b.Routes.length > 0 then processRoutes b.Routes else [])
      ++ (if b.VLAN ≠ 0
          then ["", "[BridgeVLAN]", "VLAN=1-4094", "PVID=" ++ toString b.VLAN]
          else []) }

/-- Per-bond `21-br` network artifact binding the bond device into the
bridge. -/
def bondBridgeNetworkFile (b : SystemNetworkBond) : networkdConfigFile :=
  let strippedHwaddr := stripColonsToLower b.Hwaddr
  { Name := "21-br" ++ strippedHwaddr ++ ".network"
    Contents := ["[Match]", "Name=bn" ++ strippedHwaddr, "",
                 "[Network]", "Bridge=" ++ b.Name] }

/-- Per-bond-member `21-bn...-devN` network artifact binding the member link
into the bond, carrying the LLDP policy. -/
def bondMemberNetworkFile (b : SystemNetworkBond) (index : Nat) (member : String) :
    networkdConfigFile :=
  let strippedHwaddr := stripColonsToLower b.Hwaddr
  let memberStrippedHwaddr := stripColonsToLower member
  { Name := "21-bn" ++ strippedHwaddr ++ "-dev" ++ toString index ++ ".network"
    Contents := ["[Match]", "Name=en" ++ memberStrippedHwaddr, "",
                 "[Network]", "Bond=bn" ++ strippedHwaddr,
                 "LLDP=" ++ (if b.LLDP then "true" else "false"),
                 "EmitLLDP=" ++ (if b.LLDP then "true" else "false")] }

/-- Per-VLAN `22-` network artifact: match on the parent device, fixed
`[DHCP]` block, `[Network]` block declaring the VLAN and carrying
DNS/NTP/addresses/routes. -/
def vlanNetworkFile (dns : Option SystemNetworkDNS) (ntp : Option SystemNetworkNTP)
    (v : SystemNetworkVLAN) : networkdConfigFile :=
  { Name := "22-vl" ++ v.Name ++ ".network"
    Contents :=
      ["[Match]", "Name=" ++ v.Parent, "",
       "[DHCP]", "ClientIdentifier=mac", "RouteMetric=100", "UseMTU=true", "",
       "[Network]", "VLAN=vl" ++ v.Name]
      ++ generateNetworkSectionContents dns ntp
      ++ processAddresses v.Addresses
      ++ (if v.Routes.length > 0 then processRoutes v.Routes else []) }

/-- `generateNetworkFileContents`: for each interface the addressing artifact
and the bridge-binding artifact; for each bond the addressing artifact, the
bridge-binding artifact and one artifact per member; one artifact per VLAN. -/
def generateNetworkFileContents (networkCfg : SystemNetworkConfig) : List networkdConfigFile :=
  networkCfg.Interfaces.flatMap (fun i =>
    [interfaceNetworkFile networkCfg.DNS networkCfg.NTP i, interfaceBridgeNetworkFile i])
  ++ networkCfg.Bonds.flatMap (fun b =>
    [bondNetworkFile networkCfg.DNS networkCfg.NTP b, bondBridgeNetworkFile b]
    ++ b.Members.enum.map (fun p => bondMemberNetworkFile b p.1 p.2))
  ++ networkCfg.VLANs.map (vlanNetworkFile networkCfg.DNS networkCfg.NTP)

/-- One category check of the `waitForNetworkRoutable` poll loop: a non-empty
category passes when the fold-computed "all routable" holds (requireAll) or
the fold-computed "at least one routable" holds (otherwise); an empty
category is skipped. `r` is the per-device routability query
(`networkctl status <name>` reporting "State: routable"). -/
def categoryPasses (requireAllRoutable : Bool) (r : String → Bool)
    (names : List String) : Bool :=
  if names.length > 0 then
    let allRoutable := names.foldl (fun acc n => acc && r n) true
    let atLestOneRoutable := names.foldl (fun acc n => acc || r n) false
    if requireAllRoutable then allRoutable else atLestOneRoutable
  else true

/-- One poll cycle of `waitForNetworkRoutable`: the cycle succeeds when the
interface, bond and VLAN categories all pass; devices are queried by their
configured `Name`. -/
def pollCycleOK (networkCfg : SystemNetworkConfig) (r : String → Bool)
    (requireAllRoutable : Bool) : Bool :=
  categoryPasses requireAllRoutable r (networkCfg.Interfaces.map (fun i => i.Name))
  && categoryPasses requireAllRoutable r (networkCfg.Bonds.map (fun b => b.Name))
  && categoryPasses requireAllRoutable r (networkCfg.VLANs.map (fun v => v.Name))

/-- `waitForNetworkRoutable`: each element of `polls` is the routability
assignment observed by one poll cycle that fits before the deadline; the
loop returns success on the first cycle whose categories all pass and the
timeout error once the cycles are exhausted. -/
def waitForNetworkRoutable (networkCfg : SystemNetworkConfig)
    (requireAllRoutable : Bool) : List (String → Bool) → Except String Unit
  | [] => Except.error "timed out waiting for network to become routable"
  | r :: rest =>
    if pollCycleOK networkCfg r requireAllRoutable then Except.ok ()
    else waitForNetworkRoutable networkCfg requireAllRoutable rest

/-- The device names queried by the poll loop of `waitForNetworkRoutable`,
in query order: interface names, bond names, VLAN names. -/
def waitQueriedNames (networkCfg : SystemNetworkConfig) : List String :=
  networkCfg.Interfaces.map (fun i => i.Name)
  ++ networkCfg.Bonds.map (fun b => b.Name)
  ++ networkCfg.VLANs.map (fun v => v.Name)

/-- One externally visible step of `ApplyNetworkConfiguration`, in source
order: set hostname, update proxy environment, regenerate the configuration
directory, fixed pre-trigger sleep, udev trigger, udev settle, service
restarts, convergence wait. -/
inductive ApplyStep where
  | setHostname (hostname : String)
  | updateEnvironment
  | generateNetworkConfiguration
  | sleepBeforeTrigger
  | udevTrigger
  | udevSettle
  | restartUnit (unit : String)
  | waitRoutable
deriving DecidableEq

/-- Hostname computed by `ApplyNetworkConfiguration` from the DNS block:
`hostname` joined with `"." ++ domain` when a domain is set, empty when
no hostname is configured. -/
def applyHostname (networkCfg : SystemNetworkConfig) : String :=
  match networkCfg.DNS with
  | some d =>
    if d.Hostname ≠ "" then
      (if d.Domain ≠ "" then d.Hostname ++ "." ++ d.Domain else d.Hostname)
    else ""
  | none => ""

/-- The step sequence of `ApplyNetworkConfiguration` for a non-nil
configuration, in source order. -/
def applyStepList (networkCfg : SystemNetworkConfig) : List ApplyStep :=
  [ApplyStep.setHostname (applyHostname networkCfg),
   ApplyStep.updateEnvironment,
   ApplyStep.generateNetworkConfiguration,
   ApplyStep.sleepBeforeTrigger,
   ApplyStep.udevTrigger,
   ApplyStep.udevSettle,
   ApplyStep.restartUnit "systemd-networkd",
   ApplyStep.restartUnit "systemd-timesyncd",
   ApplyStep.waitRoutable]

/-- Run a step sequence against an outcome assignment `f` for the external
capabilities: steps execute in order, the first failing step aborts the run
with its error, and the performed steps are returned as the trace. -/
def runSteps (f : ApplyStep → Except String Unit) :
    List ApplyStep → List ApplyStep × Except String Unit
  | [] => ([], Except.ok ())
  | s :: rest =>
    match f s with
    | Except.error e => ([s], Except.error e)
    | Except.ok () =>
      let res := runSteps f rest
      (s :: res.1, res.2)

/-- `ApplyNetworkConfiguration`: a nil configuration is rejected up front;
otherwise the fixed step sequence runs with short-circuit on first error.
The outcome assignment `f` abstracts the external capabilities (hostname,
environment, filesystem, udev, service control, the convergence wait). -/
def ApplyNetworkConfiguration (networkCfg : Option SystemNetworkConfig)
    (f : ApplyStep → Except String Unit) : List ApplyStep × Except String Unit :=
  match networkCfg with
  | none => ([], Except.error "no network configuration provided")
  | some c => runSteps f (applyStepList c)

/-- Modelled from the spec: `seed.NetworkConfigHasEmptyDevices` (the seed
package is not part of the provided sources). Per the spec, a configuration
with no interfaces, bonds, or VLANs defines no devices and is rejected. -/
def NetworkConfigHasEmptyDevices (networkCfg : SystemNetworkConfig) : Bool :=
  networkCfg.Interfaces.isEmpty && networkCfg.Bonds.isEmpty && networkCfg.VLANs.isEmpty

/-- Response rendered by the REST network handler on the mutating path. -/
inductive RestResponse where
  | badRequest (message : String)
  | emptySync
deriving DecidableEq

/-- In-memory server state: the active network configuration pointer. -/
structure ServerState where
  NetworkConfig : SystemNetworkConfig
deriving DecidableEq

/-- Mutating path of `apiNetwork10` (PUT/PATCH) after the body has been
decoded into `newConfig`: reject a configuration with no devices, otherwise
swap the active-configuration pointer and invoke the apply, whose outcome is
the `applyResult` argument; an apply failure renders a client error. -/
def apiNetwork10Mutate (st : ServerState) (newConfig : SystemNetworkConfig)
    (applyResult : Except String Unit) : RestResponse × ServerState :=
  if NetworkConfigHasEmptyDevices newConfig then
    (RestResponse.badRequest "network configuration has no devices defined", st)
  else
    let st2 : ServerState := { NetworkConfig := newConfig }
    match applyResult with
    | Except.error e => (RestResponse.badRequest e, st2)
    | Except.ok () => (RestResponse.emptySync, st2)

/-- A string beginning with the given text differs from any string whose
initial characters disagree with that text. -/
lemma append_ne_of_take_ne (p rest q : String)
    (h : q.data.take p.data.length ≠ p.data) : p ++ rest ≠ q := by
  intro he
  apply h
  rw [← he]
  have hd : (p ++ rest).data = p.data ++ rest.data := rfl
  rw [hd, List.take_left]

/-- Appending to a fixed front string is injective. -/
lemma string_append_right_inj (p a b : String) (h : p ++ a = p ++ b) : a = b := by
  have hd : p.data ++ a.data = p.data ++ b.data := by
    have h1 : (p ++ a).data = p.data ++ a.data := rfl
    have h2 : (p ++ b).data = p.data ++ b.data := rfl
    rw [← h1, ← h2, h]
  cases a with
  | mk da =>
    cases b with
    | mk db =>
      exact congrArg String.mk (List.append_cancel_left hd)

/-- Effect of one `processAddresses` loop iteration on the dhcp4 flag. -/
lemma addrStep_hasDHCP4 (st : AddrState) (a : String) :
    (addrStep st a).hasDHCP4 = (st.hasDHCP4 || (a == "dhcp4")) := by
  unfold addrStep
  split <;> rename_i h1
  · simp [h1]
  · split
    · simp [beq_iff_eq, h1]
    · split <;> simp [beq_iff_eq, h1]

/-- Effect of one `processAddresses` loop iteration on the dhcp6 flag. -/
lemma addrStep_hasDHCP6 (st : AddrState) (a : String) :
    (addrStep st a).hasDHCP6 = (st.hasDHCP6 || (a == "dhcp6")) := by
  unfold addrStep
  split <;> rename_i h1
  · have : (a == "dhcp6") = false := by simp [beq_iff_eq, h1]
    simp [this]
  · split <;> rename_i h2
    · simp [h2]
    · split <;> simp [beq_iff_eq, h2]

/-- Effect of one `processAddresses` loop iteration on the slaac flag. -/
lemma addrStep_acceptIPv6RA (st : AddrState) (a : String) :
    (addrStep st a).acceptIPv6RA = (st.acceptIPv6RA || (a == "slaac")) := by
  unfold addrStep
  split <;> rename_i h1
  · have : (a == "slaac") = false := by simp [beq_iff_eq, h1]
    simp [this]
  · split <;> rename_i h2
    · have : (a == "slaac") = false := by simp [beq_iff_eq, h2]
      simp [this]
    · split <;> rename_i h3
      · simp [h3]
      · simp [beq_iff_eq, h3]

/-- Effect of one `processAddresses` loop iteration on the emitted lines:
reserved tokens emit nothing, anything else an Address= line. -/
lemma addrStep_lines (st : AddrState) (a : String) :
    (addrStep st a).lines = st.lines ++
      (if a == "dhcp4" || a == "dhcp6" || a == "slaac" then []
       else ["Address=" ++ a]) := by
  unfold addrStep
  split <;> rename_i h1
  · simp [h1]
  · split <;> rename_i h2
    · simp [h2]
    · split <;> rename_i h3
      · simp [h3]
      · simp [beq_iff_eq, h1, h2, h3]

/-- The dhcp4 flag after the `processAddresses` loop: set exactly when some
token is dhcp4. -/
lemma foldl_addrStep_hasDHCP4 (addresses : List String) (st : AddrState) :
    (addresses.foldl addrStep st).hasDHCP4
      = (st.hasDHCP4 || addresses.any (fun a => a == "dhcp4")) := by
  induction addresses generalizing st with
  | nil => simp
  | cons a as ih =>
    rw [List.foldl_cons, ih, addrStep_hasDHCP4, List.any_cons, Bool.or_assoc]

/-- The dhcp6 flag after the `processAddresses` loop: set exactly when some
token is dhcp6. -/
lemma foldl_addrStep_hasDHCP6 (addresses : List String) (st : AddrState) :
    (addresses.foldl addrStep st).hasDHCP6
      = (st.hasDHCP6 || addresses.any (fun a => a == "dhcp6")) := by
  induction addresses generalizing st with
  | nil => simp
  | cons a as ih =>
    rw [List.foldl_cons, ih, addrStep_hasDHCP6, List.any_cons, Bool.or_assoc]

/-- The slaac flag after the `processAddresses` loop: set exactly when some
token is slaac. -/
lemma foldl_addrStep_acceptIPv6RA (addresses : List String) (st : AddrState) :
    (addresses.foldl addrStep st).acceptIPv6RA
      = (st.acceptIPv6RA || addresses.any (fun a => a == "slaac")) := by
  induction addresses generalizing st with
  | nil => simp
  | cons a as ih =>
    rw [List.foldl_cons, ih, addrStep_acceptIPv6RA, List.any_cons, Bool.or_assoc]

/-- The lines emitted by the `processAddresses` loop: one verbatim Address=
line per non-reserved token, in order. -/
lemma foldl_addrStep_lines (addresses : List String) (st : AddrState) :
    (addresses.foldl addrStep st).lines
      = st.lines ++ (addresses.filter
          (fun a => !(a == "dhcp4" || a == "dhcp6" || a == "slaac"))).map
          (fun a => "Address=" ++ a) := by
  induction addresses generalizing st with
  | nil => simp
  | cons a as ih =>
    rw [List.foldl_cons, ih, addrStep_lines, List.filter_cons]
    by_cases h : (a == "dhcp4" || a == "dhcp6" || a == "slaac") = true
    · simp [h]
    · simp only [Bool.not_eq_true] at h
      simp [h, List.append_assoc]

/-- Closed form of `processAddresses`: header, Address= lines for the
non-reserved tokens, the IPv6AcceptRA line, then the DHCP line selected by
which reserved tokens occur. -/
lemma processAddresses_eq (addresses : List String) :
    processAddresses addresses =
      (if addresses.length ≠ 0 then ["LinkLocalAddressing=ipv6"]
       else ["LinkLocalAddressing=no", "ConfigureWithoutCarrier=yes"])
      ++ (addresses.filter
          (fun a => !(a == "dhcp4" || a == "dhcp6" || a == "slaac"))).map
          (fun a => "Address=" ++ a)
      ++ [if addresses.any (fun a => a == "slaac")
          then "IPv6AcceptRA=true" else "IPv6AcceptRA=false"]
      ++ (if addresses.any (fun a => a == "dhcp4")
            && addresses.any (fun a => a == "dhcp6") then ["DHCP=yes"]
          else if addresses.any (fun a => a == "dhcp4") then ["DHCP=ipv4"]
          else if addresses.any (fun a => a == "dhcp6") then ["DHCP=ipv6"]
          else []) := by
  simp only [processAddresses]
  rw [foldl_addrStep_hasDHCP4, foldl_addrStep_hasDHCP6,
      foldl_addrStep_acceptIPv6RA, foldl_addrStep_lines]
  simp only [Bool.false_or]
  by_cases h4 : addresses.any (fun a => a == "dhcp4") = true
  · by_cases h6 : addresses.any (fun a => a == "dhcp6") = true
    · simp [h4, h6, List.append_assoc]
    · simp only [Bool.not_eq_true] at h6
      simp [h4, h6, List.append_assoc]
  · simp only [Bool.not_eq_true] at h4
    by_cases h6 : addresses.any (fun a => a == "dhcp6") = true
    · simp [h4, h6, List.append_assoc]
    · simp only [Bool.not_eq_true] at h6
      simp [h4, h6, List.append_assoc]

/-- Whether a generated line is a DHCP= assignment (as opposed to the
`[DHCP]` section header or any other key). -/
def isDHCPAssignment (l : String) : Bool :=
  "DHCP=".data.isPrefixOf l.data

/-- Bool-level membership test used by the loop flags. -/
lemma any_beq_iff_mem (l : List String) (x : String) :
    l.any (fun a => a == x) = true ↔ x ∈ l := by
  simp [List.any_eq_true]

/-- Negative form of the loop-flag membership test. -/
lemma any_beq_eq_false_iff (l : List String) (x : String) :
    l.any (fun a => a == x) = false ↔ x ∉ l := by
  rw [← Bool.not_eq_true, any_beq_iff_mem]

/-- An Address= line is never a DHCP= assignment. -/
lemma isDHCPAssignment_addressLine (b : String) :
    isDHCPAssignment ("Address=" ++ b) = false := rfl

/-- Membership of a line that is not an Address= line in the output of
`processAddresses`, characterized by the header case and the flag lines. -/
lemma mem_processAddresses_iff (addresses : List String) (q : String)
    (hq : ∀ a : String, "Address=" ++ a ≠ q) :
    q ∈ processAddresses addresses ↔
      ((addresses.length ≠ 0 ∧ q = "LinkLocalAddressing=ipv6")
       ∨ (addresses.length = 0
          ∧ (q = "LinkLocalAddressing=no" ∨ q = "ConfigureWithoutCarrier=yes"))
       ∨ q = (if addresses.any (fun a => a == "slaac")
              then "IPv6AcceptRA=true" else "IPv6AcceptRA=false")
       ∨ (addresses.any (fun a => a == "dhcp4") = true
          ∧ addresses.any (fun a => a == "dhcp6") = true ∧ q = "DHCP=yes")
       ∨ (addresses.any (fun a => a == "dhcp4") = true
          ∧ addresses.any (fun a => a == "dhcp6") = false ∧ q = "DHCP=ipv4")
       ∨ (addresses.any (fun a => a == "dhcp4") = false
          ∧ addresses.any (fun a => a == "dhcp6") = true ∧ q = "DHCP=ipv6")) := by
  rw [processAddresses_eq]
  by_cases hl : addresses.length = 0 <;>
    by_cases h4 : addresses.any (fun a => a == "dhcp4") = true <;>
      by_cases h6 : addresses.any (fun a => a == "dhcp6") = true
  all_goals
    simp only [Bool.not_eq_true] at h4 h6
  all_goals
    have hq2 : ∀ a : String, ¬(q = "Address=" ++ a) := fun a h => hq a h.symm
    simp [hl, h4, h6, List.mem_append, List.mem_map, List.mem_filter, hq, hq2]
  all_goals tauto

/-- Membership of an Address= line in the output of `processAddresses`:
exactly the non-reserved tokens appear, verbatim. -/
lemma addressLine_mem_processAddresses_iff (addresses : List String) (a : String) :
    ("Address=" ++ a) ∈ processAddresses addresses ↔
      (a ∈ addresses ∧ a ≠ "dhcp4" ∧ a ≠ "dhcp6" ∧ a ≠ "slaac") := by
  rw [processAddresses_eq]
  have hinj : ∀ b : String, ("Address=" ++ b = "Address=" ++ a) ↔ b = a :=
    fun b => ⟨fun h => string_append_right_inj _ _ _ h, fun h => by rw [h]⟩
  have n1 : ("Address=" ++ a) ≠ "LinkLocalAddressing=ipv6" :=
    append_ne_of_take_ne _ _ _ (by decide)
  have n2 : ("Address=" ++ a) ≠ "LinkLocalAddressing=no" :=
    append_ne_of_take_ne _ _ _ (by decide)
  have n3 : ("Address=" ++ a) ≠ "ConfigureWithoutCarrier=yes" :=
    append_ne_of_take_ne _ _ _ (by decide)
  have n4 : ("Address=" ++ a) ≠ "IPv6AcceptRA=true" :=
    append_ne_of_take_ne _ _ _ (by decide)
  have n5 : ("Address=" ++ a) ≠ "IPv6AcceptRA=false" :=
    append_ne_of_take_ne _ _ _ (by decide)
  have n6 : ("Address=" ++ a) ≠ "DHCP=yes" :=
    append_ne_of_take_ne _ _ _ (by decide)
  have n7 : ("Address=" ++ a) ≠ "DHCP=ipv4" :=
    append_ne_of_take_ne _ _ _ (by decide)
  have n8 : ("Address=" ++ a) ≠ "DHCP=ipv6" :=
    append_ne_of_take_ne _ _ _ (by decide)
  rcases Bool.eq_false_or_eq_true (addresses.any fun x => x == "dhcp4") with h4 | h4 <;>
    rcases Bool.eq_false_or_eq_true (addresses.any fun x => x == "dhcp6") with h6 | h6 <;>
      rcases Bool.eq_false_or_eq_true (addresses.any fun x => x == "slaac") with hs | hs <;>
        by_cases hl : addresses.length = 0
  all_goals
    simp [hl, h4, h6, hs, List.mem_append, List.mem_map, List.mem_filter,
          hinj, n1, n2, n3, n4, n5, n6, n7, n8, beq_iff_eq, and_assoc]
  all_goals
    constructor
    · rintro ⟨b, hb, hb4, hb6, hbs, rfl⟩
      exact ⟨hb, hb4, hb6, hbs⟩
    · rintro ⟨hb, hb4, hb6, hbs⟩
      exact ⟨a, hb, hb4, hb6, hbs, rfl⟩

/-- Claim C2: for every device, the generated [Network] body derived from
the address-token list has the link-local header determined by emptiness,
the IPv6AcceptRA line determined by the slaac token, the DHCP line
determined by the dhcp4/dhcp6 tokens (and no DHCP= line when neither is
present), and exactly the non-reserved tokens emitted verbatim as
Address= lines. -/
theorem processAddresses_spec (addresses : List String) :
    (addresses ≠ [] → "LinkLocalAddressing=ipv6" ∈ processAddresses addresses)
    ∧ (addresses = [] →
        "LinkLocalAddressing=no" ∈ processAddresses addresses
        ∧ "ConfigureWithoutCarrier=yes" ∈ processAddresses addresses
        ∧ "LinkLocalAddressing=ipv6" ∉ processAddresses addresses)
    ∧ ("IPv6AcceptRA=true" ∈ processAddresses addresses ↔ "slaac" ∈ addresses)
    ∧ ("IPv6AcceptRA=false" ∈ processAddresses addresses ↔ "slaac" ∉ addresses)
    ∧ ("DHCP=yes" ∈ processAddresses addresses
        ↔ ("dhcp4" ∈ addresses ∧ "dhcp6" ∈ addresses))
    ∧ ("DHCP=ipv4" ∈ processAddresses addresses
        ↔ ("dhcp4" ∈ addresses ∧ "dhcp6" ∉ addresses))
    ∧ ("DHCP=ipv6" ∈ processAddresses addresses
        ↔ ("dhcp4" ∉ addresses ∧ "dhcp6" ∈ addresses))
    ∧ ("dhcp4" ∉ addresses → "dhcp6" ∉ addresses →
        ∀ l ∈ processAddresses addresses, isDHCPAssignment l = false)
    ∧ (∀ a : String, ("Address=" ++ a) ∈ processAddresses addresses ↔
        (a ∈ addresses ∧ a ≠ "dhcp4" ∧ a ≠ "dhcp6" ∧ a ≠ "slaac")) := by
  refine ⟨?_, ?_, ?_, ?_, ?_, ?_, ?_, ?_, ?_⟩
  · intro h
    rw [mem_processAddresses_iff _ _
      (fun a => append_ne_of_take_ne _ _ _ (by decide))]
    exact Or.inl ⟨by simpa [List.length_eq_zero] using h, rfl⟩
  · intro h
    subst h
    refine ⟨by decide, by decide, by decide⟩
  · rw [mem_processAddresses_iff _ _
      (fun a => append_ne_of_take_ne _ _ _ (by decide))]
    by_cases hs : "slaac" ∈ addresses
    · have hsb : (addresses.any fun x => x == "slaac") = true :=
        (any_beq_iff_mem _ _).mpr hs
      simp [hsb, hs]
    · have hsb : (addresses.any fun x => x == "slaac") = false :=
        (any_beq_eq_false_iff _ _).mpr hs
      simp [hsb, hs]
  · rw [mem_processAddresses_iff _ _
      (fun a => append_ne_of_take_ne _ _ _ (by decide))]
    by_cases hs : "slaac" ∈ addresses
    · have hsb : (addresses.any fun x => x == "slaac") = true :=
        (any_beq_iff_mem _ _).mpr hs
      simp [hsb, hs]
    · have hsb : (addresses.any fun x => x == "slaac") = false :=
        (any_beq_eq_false_iff _ _).mpr hs
      simp [hsb, hs]
  · rw [mem_processAddresses_iff _ _
      (fun a => append_ne_of_take_ne _ _ _ (by decide))]
    by_cases m4 : "dhcp4" ∈ addresses <;> by_cases m6 : "dhcp6" ∈ addresses
    all_goals
      first
      | (have b4 : (addresses.any fun x => x == "dhcp4") = true :=
          (any_beq_iff_mem _ _).mpr m4
         have b6 : (addresses.any fun x => x == "dhcp6") = true :=
          (any_beq_iff_mem _ _).mpr m6
         simp [b4, b6, m4, m6])
      | (have b4 : (addresses.any fun x => x == "dhcp4") = true :=
          (any_beq_iff_mem _ _).mpr m4
         have b6 : (addresses.any fun x => x == "dhcp6") = false :=
          (any_beq_eq_false_iff _ _).mpr m6
         simp [b4, b6, m4, m6])
      | (have b4 : (addresses.any fun x => x == "dhcp4") = false :=
          (any_beq_eq_false_iff _ _).mpr m4
         have b6 : (addresses.any fun x => x == "dhcp6") = true :=
          (any_beq_iff_mem _ _).mpr m6
         simp [b4, b6, m4, m6])
      | (have b4 : (addresses.any fun x => x == "dhcp4") = false :=
          (any_beq_eq_false_iff _ _).mpr m4
         have b6 : (addresses.any fun x => x == "dhcp6") = false :=
          (any_beq_eq_false_iff _ _).mpr m6
         simp [b4, b6, m4, m6])
    all_goals (split <;> simp)
  · rw [mem_processAddresses_iff _ _
      (fun a => append_ne_of_take_ne _ _ _ (by decide))]
    by_cases m4 : "dhcp4" ∈ addresses <;> by_cases m6 : "dhcp6" ∈ addresses
    all_goals
      first
      | (have b4 : (addresses.any fun x => x == "dhcp4") = true :=
          (any_beq_iff_mem _ _).mpr m4
         have b6 : (addresses.any fun x => x == "dhcp6") = true :=
          (any_beq_iff_mem _ _).mpr m6
         simp [b4, b6, m4, m6])
      | (have b4 : (addresses.any fun x => x == "dhcp4") = true :=
          (any_beq_iff_mem _ _).mpr m4
         have b6 : (addresses.any fun x => x == "dhcp6") = false :=
          (any_beq_eq_false_iff _ _).mpr m6
         simp [b4, b6, m4, m6])
      | (have b4 : (addresses.any fun x => x == "dhcp4") = false :=
          (any_beq_eq_false_iff _ _).mpr m4
         have b6 : (addresses.any fun x => x == "dhcp6") = true :=
          (any_beq_iff_mem _ _).mpr m6
         simp [b4, b6, m4, m6])
      | (have b4 : (addresses.any fun x => x == "dhcp4") = false :=
          (any_beq_eq_false_iff _ _).mpr m4
         have b6 : (addresses.any fun x => x == "dhcp6") = false :=
          (any_beq_eq_false_iff _ _).mpr m6
         simp [b4, b6, m4, m6])
    all_goals (split <;> simp)
  · rw [mem_processAddresses_iff _ _
      (fun a => append_ne_of_take_ne _ _ _ (by decide))]
    by_cases m4 : "dhcp4" ∈ addresses <;> by_cases m6 : "dhcp6" ∈ addresses
    all_goals
      first
      | (have b4 : (addresses.any fun x => x == "dhcp4") = true :=
          (any_beq_iff_mem _ _).mpr m4
         have b6 : (addresses.any fun x => x == "dhcp6") = true :=
          (any_beq_iff_mem _ _).mpr m6
         simp [b4, b6, m4, m6])
      | (have b4 : (addresses.any fun x => x == "dhcp4") = true :=
          (any_beq_iff_mem _ _).mpr m4
         have b6 : (addresses.any fun x => x == "dhcp6") = false :=
          (any_beq_eq_false_iff _ _).mpr m6
         simp [b4, b6, m4, m6])
      | (have b4 : (addresses.any fun x => x == "dhcp4") = false :=
          (any_beq_eq_false_iff _ _).mpr m4
         have b6 : (addresses.any fun x => x == "dhcp6") = true :=
          (any_beq_iff_mem _ _).mpr m6
         simp [b4, b6, m4, m6])
      | (have b4 : (addresses.any fun x => x == "dhcp4") = false :=
          (any_beq_eq_false_iff _ _).mpr m4
         have b6 : (addresses.any fun x => x == "dhcp6") = false :=
          (any_beq_eq_false_iff _ _).mpr m6
         simp [b4, b6, m4, m6])
    all_goals (split <;> simp)
  · intro m4 m6 l hl
    have b4 : (addresses.any fun x => x == "dhcp4") = false :=
      (any_beq_eq_false_iff _ _).mpr m4
    have b6 : (addresses.any fun x => x == "dhcp6") = false :=
      (any_beq_eq_false_iff _ _).mpr m6
    rw [processAddresses_eq, b4, b6] at hl
    simp only [Bool.false_and, Bool.false_eq_true, if_false,
      List.append_nil] at hl
    rcases List.mem_append.mp hl with h | h
    · rcases List.mem_append.mp h with h2 | h2
      · split at h2
        · rw [List.mem_singleton] at h2
          subst h2
          rfl
        · rcases List.mem_cons.mp h2 with h3 | h3
          · subst h3
            rfl
          · rw [List.mem_singleton] at h3
            subst h3
            rfl
      · rcases List.mem_map.mp h2 with ⟨b, _, hb⟩
        rw [← hb]
        exact isDHCPAssignment_addressLine b
    · rw [List.mem_singleton] at h
      subst h
      rcases Bool.eq_false_or_eq_true (addresses.any fun x => x == "slaac")
        with hs | hs <;> rw [hs] <;> rfl
  · intro a
    exact addressLine_mem_processAddresses_iff addresses a

/-- Witness for C2 at the token list [dhcp4, slaac]. -/
theorem processAddresses_spec_witness :
    "LinkLocalAddressing=ipv6" ∈ processAddresses ["dhcp4", "slaac"]
    ∧ ("DHCP=ipv4" ∈ processAddresses ["dhcp4", "slaac"] ↔
        ("dhcp4" ∈ ["dhcp4", "slaac"] ∧ "dhcp6" ∉ ["dhcp4", "slaac"])) :=
  ⟨(processAddresses_spec ["dhcp4", "slaac"]).1 (by decide),
   (processAddresses_spec ["dhcp4", "slaac"]).2.2.2.2.2.1⟩

/-- Folding list appends equals an initial segment plus the concatenation of
the per-element contributions. -/
lemma foldl_append_flatMap {α β : Type} (g : α → List β) (l : List α)
    (init : List β) :
    l.foldl (fun acc a => acc ++ g a) init = init ++ l.flatMap g := by
  induction l generalizing init with
  | nil => simp
  | cons a as ih => simp [List.foldl_cons, ih, List.append_assoc]

/-- Claim C8: `processRoutes` renders the [Route] block with, per route in
order, a Gateway line (dhcp4 becoming _dhcp4, slaac becoming _ipv6ra, any
other via value verbatim) immediately followed by the Destination line; in
particular the default route via dhcp4 renders as Gateway=_dhcp4 then
Destination=0.0.0.0/0. -/
theorem processRoutes_spec (routes : List SystemNetworkRoute) :
    (processRoutes routes = ["", "[Route]"] ++ routes.flatMap (fun route =>
      [(if route.Via = "dhcp4" then "Gateway=_dhcp4"
        else if route.Via = "slaac" then "Gateway=_ipv6ra"
        else "Gateway=" ++ route.Via), "Destination=" ++ route.To]))
    ∧ processRoutes [{ To := "0.0.0.0/0", Via := "dhcp4" }] =
        ["", "[Route]", "Gateway=_dhcp4", "Destination=0.0.0.0/0"] := by
  constructor
  · unfold processRoutes
    rw [foldl_append_flatMap]
    rfl
  · rfl

/-- The fold computing "all devices routable" is the conjunction of the
per-device queries. -/
lemma foldl_and_eq (r : String → Bool) (names : List String) (b : Bool) :
    names.foldl (fun acc n => acc && r n) b = (b && names.all r) := by
  induction names generalizing b with
  | nil => simp
  | cons n ns ih => simp [List.foldl_cons, ih, Bool.and_assoc]

/-- The fold computing "at least one device routable" is the disjunction of
the per-device queries. -/
lemma foldl_or_eq (r : String → Bool) (names : List String) (b : Bool) :
    names.foldl (fun acc n => acc || r n) b = (b || names.any r) := by
  induction names generalizing b with
  | nil => simp
  | cons n ns ih => simp [List.foldl_cons, ih, Bool.or_assoc]

/-- A category passes a poll cycle exactly when, if non-empty, the quorum
policy holds: every member routable under requireAll, at least one member
routable otherwise. -/
lemma categoryPasses_true_iff (requireAll : Bool) (r : String → Bool)
    (names : List String) :
    categoryPasses requireAll r names = true ↔
      (names ≠ [] →
        (requireAll = true → ∀ n ∈ names, r n = true)
        ∧ (requireAll = false → ∃ n ∈ names, r n = true)) := by
  simp only [categoryPasses]
  by_cases hn : names = []
  · subst hn
    simp
  · have hlen : names.length > 0 := List.length_pos.mpr hn
    rw [if_pos hlen]
    cases requireAll
    · simp [foldl_or_eq, List.any_eq_true, hn]
    · simp [foldl_and_eq, List.all_eq_true, hn]

/-- The wait loop returns success exactly when some poll cycle passes. -/
lemma waitForNetworkRoutable_ok_iff (networkCfg : SystemNetworkConfig)
    (requireAll : Bool) (polls : List (String → Bool)) :
    waitForNetworkRoutable networkCfg requireAll polls = Except.ok () ↔
      ∃ r ∈ polls, pollCycleOK networkCfg r requireAll = true := by
  induction polls with
  | nil => simp [waitForNetworkRoutable]
  | cons r rest ih =>
    rcases Bool.eq_false_or_eq_true (pollCycleOK networkCfg r requireAll)
      with hp | hp <;> simp [waitForNetworkRoutable, hp, ih]

/-- The wait loop returns the timeout error exactly when no poll cycle
passes before the deadline. -/
lemma waitForNetworkRoutable_error_iff (networkCfg : SystemNetworkConfig)
    (requireAll : Bool) (polls : List (String → Bool)) :
    waitForNetworkRoutable networkCfg requireAll polls
        = Except.error "timed out waiting for network to become routable" ↔
      ∀ r ∈ polls, pollCycleOK networkCfg r requireAll = false := by
  induction polls with
  | nil => simp [waitForNetworkRoutable]
  | cons r rest ih =>
    rcases Bool.eq_false_or_eq_true (pollCycleOK networkCfg r requireAll)
      with hp | hp <;> simp [waitForNetworkRoutable, hp, ih]

/-- Configuration with two bonds named bond0 and bond1 and no other
devices. -/
def twoBondConfig : SystemNetworkConfig :=
  { Interfaces := []
    Bonds := [{ Name := "bond0", Hwaddr := "", MTU := 0, VLAN := 0,
                LLDP := false, Mode := "", Members := [], Addresses := [],
                Routes := [] },
              { Name := "bond1", Hwaddr := "", MTU := 0, VLAN := 0,
                LLDP := false, Mode := "", Members := [], Addresses := [],
                Routes := [] }]
    VLANs := [], DNS := none, NTP := none, Proxy := none }

/-- Routability assignment making exactly bond0 routable. -/
def oneBondRoutable : String → Bool := fun name => name == "bond0"

/-- Claim C1: the wait succeeds exactly on the first poll cycle in which
every non-empty category's quorum verdict (conjunction under requireAll,
disjunction otherwise) holds, and returns the timeout error once the poll
budget is exhausted with no such cycle; with two bonds of which exactly one
is routable, requireAll=true times out while requireAll=false succeeds. -/
theorem waitForNetworkRoutable_spec (networkCfg : SystemNetworkConfig)
    (polls : List (String → Bool)) (requireAll : Bool) :
    (waitForNetworkRoutable networkCfg requireAll polls = Except.ok () ↔
      ∃ r ∈ polls, pollCycleOK networkCfg r requireAll = true)
    ∧ (waitForNetworkRoutable networkCfg requireAll polls
        = Except.error "timed out waiting for network to become routable" ↔
      ∀ r ∈ polls, pollCycleOK networkCfg r requireAll = false)
    ∧ (∀ r : String → Bool, pollCycleOK networkCfg r requireAll = true ↔
        ((networkCfg.Interfaces ≠ [] →
           (requireAll = true → ∀ i ∈ networkCfg.Interfaces, r i.Name = true)
           ∧ (requireAll = false → ∃ i ∈ networkCfg.Interfaces, r i.Name = true))
         ∧ (networkCfg.Bonds ≠ [] →
           (requireAll = true → ∀ b ∈ networkCfg.Bonds, r b.Name = true)
           ∧ (requireAll = false → ∃ b ∈ networkCfg.Bonds, r b.Name = true))
         ∧ (networkCfg.VLANs ≠ [] →
           (requireAll = true → ∀ v ∈ networkCfg.VLANs, r v.Name = true)
           ∧ (requireAll = false → ∃ v ∈ networkCfg.VLANs, r v.Name = true))))
    ∧ (∀ k : Nat,
        waitForNetworkRoutable twoBondConfig true
          (List.replicate (k+1) oneBondRoutable)
          = Except.error "timed out waiting for network to become routable"
        ∧ waitForNetworkRoutable twoBondConfig false
          (List.replicate (k+1) oneBondRoutable) = Except.ok ()) := by
  refine ⟨waitForNetworkRoutable_ok_iff _ _ _,
          waitForNetworkRoutable_error_iff _ _ _, ?_, ?_⟩
  · intro r
    simp only [pollCycleOK, Bool.and_eq_true, categoryPasses_true_iff]
    simp [List.mem_map, and_assoc]
  · intro k
    constructor
    · rw [waitForNetworkRoutable_error_iff]
      intro r hr
      rw [List.eq_of_mem_replicate hr]
      decide
    · rw [waitForNetworkRoutable_ok_iff]
      exact ⟨oneBondRoutable,
        List.mem_replicate.mpr ⟨Nat.succ_ne_zero k, rfl⟩, by decide⟩

/-- Witness for C1: the two-bond quorum scenario at a poll budget of one
cycle. -/
theorem waitForNetworkRoutable_spec_witness :
    waitForNetworkRoutable twoBondConfig true (List.replicate 1 oneBondRoutable)
      = Except.error "timed out waiting for network to become routable"
    ∧ waitForNetworkRoutable twoBondConfig false (List.replicate 1 oneBondRoutable)
      = Except.ok () :=
  (waitForNetworkRoutable_spec twoBondConfig [] true).2.2.2 0

/-- The single-interface configuration of the end-to-end spec scenario:
name eth-main, hwaddr aa:bb:cc:dd:ee:ff, one static address. -/
def sampleInterfaceConfig : SystemNetworkConfig :=
  { Interfaces := [{ Name := "eth-main", Hwaddr := "aa:bb:cc:dd:ee:ff",
                     MTU := 0, VLAN := 0, LLDP := false,
                     Addresses := ["192.0.2.5/24"], Routes := [] }]
    Bonds := [], VLANs := [], DNS := none, NTP := none, Proxy := none }

/-- Claim C6 (the code lacks the claimed cancellation check): the poll loop
of `waitForNetworkRoutable` never inspects the caller's cancellation signal;
a cancelled context only makes every routability query fail (the networkctl
invocation errors, which the loop treats as not routable), so the wait runs
through its entire poll budget and returns the generic timeout error instead
of aborting promptly. -/
theorem waitForNetworkRoutable_ignores_cancellation (n : Nat)
    (requireAll : Bool) :
    waitForNetworkRoutable sampleInterfaceConfig requireAll
        (List.replicate n (fun _ => false))
      = Except.error "timed out waiting for network to become routable" := by
  cases requireAll <;>
    · rw [waitForNetworkRoutable_error_iff]
      intro r hr
      rw [List.eq_of_mem_replicate hr]
      decide

/-- Counterexample for C7: the link artifact generated for hwaddr
aa:bb:cc:dd:ee:ff renames the device to enaabbccddeeff, not to the
eneabbccddeeff stated by the claim. -/
theorem linkRename_counterexample :
    (generateLinkFileContents sampleInterfaceConfig).map
        (fun f => f.Contents.contains "Name=eneabbccddeeff") = [false]
    ∧ (generateLinkFileContents sampleInterfaceConfig).map
        (fun f => f.Contents.contains "Name=enaabbccddeeff") = [true] := by
  constructor
  · decide
  · decide

/-- Claim C7 as amended (rename target enaabbccddeeff, the exact
lowercase-and-strip-colons transform of the hwaddr): the single-interface
configuration produces exactly one link artifact matching the permanent MAC
and renaming to enaabbccddeeff, one bridge netdev named eth-main, and
network artifacts of which the addressing one carries
Address=192.0.2.5/24 while none carries any DHCP= line. -/
theorem endToEnd_singleInterface_spec :
    generateLinkFileContents sampleInterfaceConfig =
      [{ Name := "00-enaabbccddeeff.link"
         Contents := ["[Match]", "PermanentMACAddress=aa:bb:cc:dd:ee:ff", "",
                      "[Link]", "NamePolicy=", "Name=enaabbccddeeff"] }]
    ∧ generateNetdevFileContents sampleInterfaceConfig =
      [{ Name := "10-braabbccddeeff.netdev"
         Contents := ["[NetDev]", "Name=eth-main", "Kind=bridge",
                      "MACAddress=aa:bb:cc:dd:ee:ff", "", "",
                      "[Bridge]", "VLANFiltering=true"] }]
    ∧ (generateNetworkFileContents sampleInterfaceConfig).map
        (fun f => f.Name) = ["20-eth-main.network", "20-braabbccddeeff.network"]
    ∧ (generateNetworkFileContents sampleInterfaceConfig).map
        (fun f => f.Contents.contains "Address=192.0.2.5/24") = [true, false]
    ∧ (generateNetworkFileContents sampleInterfaceConfig).map
        (fun f => f.Contents.all (fun l => !(isDHCPAssignment l)))
      = [true, true] := by
  refine ⟨by decide, by decide, by decide, by decide, by decide⟩

/-- Running a step list in which every step succeeds performs every step in
order and succeeds. -/
lemma runSteps_all_ok (f : ApplyStep → Except String Unit)
    (l : List ApplyStep) (h : ∀ s ∈ l, f s = Except.ok ()) :
    runSteps f l = (l, Except.ok ()) := by
  induction l with
  | nil => rfl
  | cons s rest ih =>
    have hs := h s (List.mem_cons_self s rest)
    simp [runSteps, hs, ih (fun t ht => h t (List.mem_cons_of_mem s ht))]

/-- Running a step list whose first failing step is `s` performs exactly the
successful initial segment plus `s`, returns the error of `s`, and runs
nothing after it. -/
lemma runSteps_first_error (f : ApplyStep → Except String Unit)
    (l1 l2 : List ApplyStep) (s : ApplyStep) (e : String)
    (h1 : ∀ t ∈ l1, f t = Except.ok ()) (hs : f s = Except.error e) :
    runSteps f (l1 ++ s :: l2) = (l1 ++ [s], Except.error e) := by
  induction l1 with
  | nil => simp [runSteps, hs]
  | cons t rest ih =>
    have ht := h1 t (List.mem_cons_self t rest)
    simp [runSteps, ht, ih (fun u hu => h1 u (List.mem_cons_of_mem t hu))]

/-- Claim C3: for a non-nil configuration the apply performs exactly the
nine steps in source order — hostname, proxy environment, regeneration of
the configuration directory, fixed sleep, udev trigger, udev settle,
network service restart, time-sync service restart, convergence wait — and
the first failing step aborts the run with its error, no later step
running and no step retried. -/
theorem applyNetworkConfiguration_steps (networkCfg : SystemNetworkConfig)
    (f : ApplyStep → Except String Unit) :
    (applyStepList networkCfg =
      [ApplyStep.setHostname (applyHostname networkCfg),
       ApplyStep.updateEnvironment,
       ApplyStep.generateNetworkConfiguration,
       ApplyStep.sleepBeforeTrigger,
       ApplyStep.udevTrigger,
       ApplyStep.udevSettle,
       ApplyStep.restartUnit "systemd-networkd",
       ApplyStep.restartUnit "systemd-timesyncd",
       ApplyStep.waitRoutable])
    ∧ ((∀ s ∈ applyStepList networkCfg, f s = Except.ok ()) →
        ApplyNetworkConfiguration (some networkCfg) f
          = (applyStepList networkCfg, Except.ok ()))
    ∧ (∀ (l1 l2 : List ApplyStep) (s : ApplyStep) (e : String),
        applyStepList networkCfg = l1 ++ s :: l2 →
        (∀ t ∈ l1, f t = Except.ok ()) →
        f s = Except.error e →
        ApplyNetworkConfiguration (some networkCfg) f
          = (l1 ++ [s], Except.error e)) := by
  refine ⟨rfl, ?_, ?_⟩
  · intro h
    simp [ApplyNetworkConfiguration, runSteps_all_ok f _ h]
  · intro l1 l2 s e hsplit h1 hs
    simp [ApplyNetworkConfiguration, hsplit, runSteps_first_error f l1 l2 s e h1 hs]

/-- Configuration used by the apply witnesses: hostname host, domain
example.com, one interface. -/
def applyWitnessConfig : SystemNetworkConfig :=
  { Interfaces := [{ Name := "eth0", Hwaddr := "00:11:22:33:44:55",
                     MTU := 0, VLAN := 0, LLDP := false, Addresses := [],
                     Routes := [] }]
    Bonds := [], VLANs := []
    DNS := some { Hostname := "host", Domain := "example.com",
                  SearchDomains := [], Nameservers := [] }
    NTP := none, Proxy := none }

/-- Outcome assignment failing exactly at the udev trigger step. -/
def failAtUdevTrigger : ApplyStep → Except String Unit :=
  fun s => if s = ApplyStep.udevTrigger then Except.error "udev failed"
           else Except.ok ()

/-- Witness for C3: with the udev trigger failing, the apply performs the
first five steps only and returns that error. -/
theorem applyNetworkConfiguration_steps_witness :
    ApplyNetworkConfiguration (some applyWitnessConfig) failAtUdevTrigger
      = ([ApplyStep.setHostname "host.example.com",
          ApplyStep.updateEnvironment,
          ApplyStep.generateNetworkConfiguration,
          ApplyStep.sleepBeforeTrigger,
          ApplyStep.udevTrigger], Except.error "udev failed") :=
  (applyNetworkConfiguration_steps applyWitnessConfig failAtUdevTrigger).2.2
    [ApplyStep.setHostname "host.example.com",
     ApplyStep.updateEnvironment,
     ApplyStep.generateNetworkConfiguration,
     ApplyStep.sleepBeforeTrigger]
    [ApplyStep.udevSettle,
     ApplyStep.restartUnit "systemd-networkd",
     ApplyStep.restartUnit "systemd-timesyncd",
     ApplyStep.waitRoutable]
    ApplyStep.udevTrigger "udev failed" (by decide)
    (by intro t ht; fin_cases ht <;> rfl) rfl

/-- Claim C10: a nil configuration is rejected immediately with the error
"no network configuration provided": the trace is empty, so no hostname
change, environment change, directory write, command invocation or service
restart is performed. -/
theorem applyNetworkConfiguration_nil (f : ApplyStep → Except String Unit) :
    ApplyNetworkConfiguration none f
      = ([], Except.error "no network configuration provided") := rfl

/-- Claim C4: the mutating REST path rejects a configuration with no
devices with a client error, leaving the active configuration unchanged;
any configuration that passes the check is installed as the active
configuration before the apply outcome is examined, so a failed apply
returns a client error while the active pointer already holds the attempted
configuration. -/
theorem apiNetwork10Mutate_spec (st : ServerState)
    (newConfig : SystemNetworkConfig) (applyResult : Except String Unit) :
    (NetworkConfigHasEmptyDevices newConfig = true →
      apiNetwork10Mutate st newConfig applyResult
        = (RestResponse.badRequest "network configuration has no devices defined", st))
    ∧ (NetworkConfigHasEmptyDevices newConfig = false →
        (apiNetwork10Mutate st newConfig applyResult).2
          = { NetworkConfig := newConfig })
    ∧ (NetworkConfigHasEmptyDevices newConfig = false →
        ∀ e : String, applyResult = Except.error e →
          apiNetwork10Mutate st newConfig applyResult
            = (RestResponse.badRequest e, { NetworkConfig := newConfig })) := by
  refine ⟨?_, ?_, ?_⟩
  · intro h
    simp [apiNetwork10Mutate, h]
  · intro h
    cases applyResult with
    | error e => simp [apiNetwork10Mutate, h]
    | ok u => cases u; simp [apiNetwork10Mutate, h]
  · intro h e he
    subst he
    simp [apiNetwork10Mutate, h]

/-- Witness for C4: a failed apply of the two-bond configuration returns the
client error while the active pointer holds the attempted configuration. -/
theorem apiNetwork10Mutate_spec_witness :
    apiNetwork10Mutate { NetworkConfig := sampleInterfaceConfig }
        twoBondConfig (Except.error "apply failed")
      = (RestResponse.badRequest "apply failed",
         { NetworkConfig := twoBondConfig }) :=
  (apiNetwork10Mutate_spec { NetworkConfig := sampleInterfaceConfig }
      twoBondConfig (Except.error "apply failed")).2.2
    (by decide) "apply failed" rfl

/-- The per-interface bridge-binding network artifact has no [DHCP] line. -/
lemma dhcp_not_mem_interfaceBridge (i : SystemNetworkInterface) :
    "[DHCP]" ∉ (interfaceBridgeNetworkFile i).Contents := by
  intro hm
  simp only [interfaceBridgeNetworkFile, List.mem_cons, List.not_mem_nil,
    or_false] at hm
  rcases hm with h | h | h | h | h | h | h
  · exact absurd h (by decide)
  · exact append_ne_of_take_ne "Name=en" _ _ (by decide) h.symm
  · exact absurd h (by decide)
  · exact absurd h (by decide)
  · exact append_ne_of_take_ne "Bridge=" _ _ (by decide) h.symm
  · exact append_ne_of_take_ne "LLDP=" _ _ (by decide) h.symm
  · exact append_ne_of_take_ne "EmitLLDP=" _ _ (by decide) h.symm

/-- The per-bond bridge-binding network artifact has no [DHCP] line. -/
lemma dhcp_not_mem_bondBridge (b : SystemNetworkBond) :
    "[DHCP]" ∉ (bondBridgeNetworkFile b).Contents := by
  intro hm
  simp only [bondBridgeNetworkFile, List.mem_cons, List.not_mem_nil,
    or_false] at hm
  rcases hm with h | h | h | h | h
  · exact absurd h (by decide)
  · exact append_ne_of_take_ne "Name=bn" _ _ (by decide) h.symm
  · exact absurd h (by decide)
  · exact absurd h (by decide)
  · exact append_ne_of_take_ne "Bridge=" _ _ (by decide) h.symm

/-- The per-bond-member network artifact has no [DHCP] line. -/
lemma dhcp_not_mem_bondMember (b : SystemNetworkBond) (index : Nat)
    (member : String) :
    "[DHCP]" ∉ (bondMemberNetworkFile b index member).Contents := by
  intro hm
  simp only [bondMemberNetworkFile, List.mem_cons, List.not_mem_nil,
    or_false] at hm
  rcases hm with h | h | h | h | h | h | h
  · exact absurd h (by decide)
  · exact append_ne_of_take_ne "Name=en" _ _ (by decide) h.symm
  · exact absurd h (by decide)
  · exact absurd h (by decide)
  · exact append_ne_of_take_ne "Bond=bn" _ _ (by decide) h.symm
  · exact append_ne_of_take_ne "LLDP=" _ _ (by decide) h.symm
  · exact append_ne_of_take_ne "EmitLLDP=" _ _ (by decide) h.symm

/-- Counterexample for C5: for the single-interface configuration the first
generated .network artifact (the addressing one) contains the [DHCP] block
but the second (the bridge-binding one) does not, contradicting the claim
that every .network artifact, bridge-binding ones included, carries it. -/
theorem networkArtifacts_dhcp_counterexample :
    (generateNetworkFileContents sampleInterfaceConfig).map
        (fun f => f.Contents.contains "[DHCP]") = [true, false] := by
  decide

/-- Claim C5 as amended: the addressing artifacts (per interface, per bond,
per VLAN) open with a [DHCP] block fixing ClientIdentifier=mac,
RouteMetric=100 and UseMTU=true followed by the [Network] block, while the
bridge-binding and bond-member artifacts contain no [DHCP] line at all;
every generated .network artifact is of one of these two shapes. -/
theorem networkArtifacts_dhcp_block_spec (networkCfg : SystemNetworkConfig) :
    (∀ (dns : Option SystemNetworkDNS) (ntp : Option SystemNetworkNTP)
        (i : SystemNetworkInterface),
      (interfaceNetworkFile dns ntp i).Contents.take 9 =
        ["[Match]", "Name=" ++ i.Name, "", "[DHCP]", "ClientIdentifier=mac",
         "RouteMetric=100", "UseMTU=true", "", "[Network]"])
    ∧ (∀ (dns : Option SystemNetworkDNS) (ntp : Option SystemNetworkNTP)
        (b : SystemNetworkBond),
      (bondNetworkFile dns ntp b).Contents.take 9 =
        ["[Match]", "Name=" ++ b.Name, "", "[DHCP]", "ClientIdentifier=mac",
         "RouteMetric=100", "UseMTU=true", "", "[Network]"])
    ∧ (∀ (dns : Option SystemNetworkDNS) (ntp : Option SystemNetworkNTP)
        (v : SystemNetworkVLAN),
      (vlanNetworkFile dns ntp v).Contents.take 9 =
        ["[Match]", "Name=" ++ v.Parent, "", "[DHCP]", "ClientIdentifier=mac",
         "RouteMetric=100", "UseMTU=true", "", "[Network]"])
    ∧ (∀ i : SystemNetworkInterface,
        "[DHCP]" ∉ (interfaceBridgeNetworkFile i).Contents)
    ∧ (∀ b : SystemNetworkBond, "[DHCP]" ∉ (bondBridgeNetworkFile b).Contents)
    ∧ (∀ (b : SystemNetworkBond) (index : Nat) (member : String),
        "[DHCP]" ∉ (bondMemberNetworkFile b index member).Contents)
    ∧ (∀ file ∈ generateNetworkFileContents networkCfg,
        (∃ matchName, file.Contents.take 9 =
          ["[Match]", "Name=" ++ matchName, "", "[DHCP]",
           "ClientIdentifier=mac", "RouteMetric=100", "UseMTU=true", "",
           "[Network]"])
        ∨ "[DHCP]" ∉ file.Contents) := by
  have hi : ∀ (dns : Option SystemNetworkDNS) (ntp : Option SystemNetworkNTP)
      (i : SystemNetworkInterface),
      (interfaceNetworkFile dns ntp i).Contents.take 9 =
        ["[Match]", "Name=" ++ i.Name, "", "[DHCP]", "ClientIdentifier=mac",
         "RouteMetric=100", "UseMTU=true", "", "[Network]"] := by
    intro dns ntp i
    exact List.take_left
      ["[Match]", "Name=" ++ i.Name, "", "[DHCP]", "ClientIdentifier=mac",
       "RouteMetric=100", "UseMTU=true", "", "[Network]"] _
  have hb : ∀ (dns : Option SystemNetworkDNS) (ntp : Option SystemNetworkNTP)
      (b : SystemNetworkBond),
      (bondNetworkFile dns ntp b).Contents.take 9 =
        ["[Match]", "Name=" ++ b.Name, "", "[DHCP]", "ClientIdentifier=mac",
         "RouteMetric=100", "UseMTU=true", "", "[Network]"] := by
    intro dns ntp b
    exact List.take_left
      ["[Match]", "Name=" ++ b.Name, "", "[DHCP]", "ClientIdentifier=mac",
       "RouteMetric=100", "UseMTU=true", "", "[Network]"] _
  have hv : ∀ (dns : Option SystemNetworkDNS) (ntp : Option SystemNetworkNTP)
      (v : SystemNetworkVLAN),
      (vlanNetworkFile dns ntp v).Contents.take 9 =
        ["[Match]", "Name=" ++ v.Parent, "", "[DHCP]", "ClientIdentifier=mac",
         "RouteMetric=100", "UseMTU=true", "", "[Network]"] := by
    intro dns ntp v
    have h10 : (vlanNetworkFile dns ntp v).Contents =
        (["[Match]", "Name=" ++ v.Parent, "", "[DHCP]", "ClientIdentifier=mac",
          "RouteMetric=100", "UseMTU=true", "", "[Network]"]
         ++ ("VLAN=vl" ++ v.Name)
            :: (generateNetworkSectionContents dns ntp
                ++ processAddresses v.Addresses
                ++ (if v.Routes.length > 0 then processRoutes v.Routes else []))) :=
      rfl
    rw [h10]
    exact List.take_left
      ["[Match]", "Name=" ++ v.Parent, "", "[DHCP]", "ClientIdentifier=mac",
       "RouteMetric=100", "UseMTU=true", "", "[Network]"] _
  refine ⟨hi, hb, hv, dhcp_not_mem_interfaceBridge, dhcp_not_mem_bondBridge,
          dhcp_not_mem_bondMember, ?_⟩
  intro file hf
  simp only [generateNetworkFileContents, List.mem_append] at hf
  rcases hf with (hf | hf) | hf
  · rcases List.mem_flatMap.mp hf with ⟨i, _, hfi⟩
    rcases List.mem_cons.mp hfi with rfl | hfi2
    · exact Or.inl ⟨i.Name, hi _ _ i⟩
    · rcases List.mem_cons.mp hfi2 with rfl | hfi3
      · exact Or.inr (dhcp_not_mem_interfaceBridge i)
      · exact absurd hfi3 (List.not_mem_nil _)
  · rcases List.mem_flatMap.mp hf with ⟨b, _, hfb⟩
    rcases List.mem_append.mp hfb with hfb1 | hfb2
    · rcases List.mem_cons.mp hfb1 with rfl | hfb3
      · exact Or.inl ⟨b.Name, hb _ _ b⟩
      · rcases List.mem_cons.mp hfb3 with rfl | hfb4
        · exact Or.inr (dhcp_not_mem_bondBridge b)
        · exact absurd hfb4 (List.not_mem_nil _)
    · rcases List.mem_map.mp hfb2 with ⟨p, _, hp⟩
      rw [← hp]
      exact Or.inr (dhcp_not_mem_bondMember b p.1 p.2)
  · rcases List.mem_map.mp hf with ⟨v, _, hfv⟩
    rw [← hfv]
    exact Or.inl ⟨v.Parent, hv _ _ v⟩

/-- Witness for C5 at the bridge-binding artifact of the single-interface
configuration. -/
theorem networkArtifacts_dhcp_block_spec_witness :
    (∃ matchName, (interfaceBridgeNetworkFile
        { Name := "eth-main", Hwaddr := "aa:bb:cc:dd:ee:ff", MTU := 0,
          VLAN := 0, LLDP := false, Addresses := ["192.0.2.5/24"],
          Routes := [] }).Contents.take 9 =
      ["[Match]", "Name=" ++ matchName, "", "[DHCP]", "ClientIdentifier=mac",
       "RouteMetric=100", "UseMTU=true", "", "[Network]"])
    ∨ "[DHCP]" ∉ (interfaceBridgeNetworkFile
        { Name := "eth-main", Hwaddr := "aa:bb:cc:dd:ee:ff", MTU := 0,
          VLAN := 0, LLDP := false, Addresses := ["192.0.2.5/24"],
          Routes := [] }).Contents :=
  (networkArtifacts_dhcp_block_spec sampleInterfaceConfig).2.2.2.2.2.2
    (interfaceBridgeNetworkFile
      { Name := "eth-main", Hwaddr := "aa:bb:cc:dd:ee:ff", MTU := 0,
        VLAN := 0, LLDP := false, Addresses := ["192.0.2.5/24"],
        Routes := [] })
    (by decide)

/-- The all-routable verdict depends only on the queried names. -/
lemma list_all_congr (r r2 : String → Bool) (names : List String)
    (h : ∀ n ∈ names, r n = r2 n) : names.all r = names.all r2 := by
  induction names with
  | nil => rfl
  | cons n ns ih =>
    simp [List.all_cons, h n (List.mem_cons_self n ns),
          ih (fun m hm => h m (List.mem_cons_of_mem n hm))]

/-- The any-routable verdict depends only on the queried names. -/
lemma list_any_congr (r r2 : String → Bool) (names : List String)
    (h : ∀ n ∈ names, r n = r2 n) : names.any r = names.any r2 := by
  induction names with
  | nil => rfl
  | cons n ns ih =>
    simp [List.any_cons, h n (List.mem_cons_self n ns),
          ih (fun m hm => h m (List.mem_cons_of_mem n hm))]

/-- A category verdict depends only on the routability of its own queried
names. -/
lemma categoryPasses_congr (requireAll : Bool) (r r2 : String → Bool)
    (names : List String) (h : ∀ n ∈ names, r n = r2 n) :
    categoryPasses requireAll r names = categoryPasses requireAll r2 names := by
  simp only [categoryPasses]
  rw [foldl_and_eq, foldl_and_eq, foldl_or_eq, foldl_or_eq,
      list_all_congr r r2 names h, list_any_congr r r2 names h]

/-- The VLAN of the C9 witness scenario. -/
def sampleVlan : SystemNetworkVLAN :=
  { Name := "v10", Parent := "eth-main", ID := 10, MTU := 0, Addresses := [],
    Routes := [] }

/-- Configuration holding only the C9 witness VLAN. -/
def sampleVlanConfig : SystemNetworkConfig :=
  { Interfaces := [], Bonds := [], VLANs := [sampleVlan], DNS := none,
    NTP := none, Proxy := none }

/-- Claim C9: the generated VLAN netdev artifact declares the device name
"vl" prepended to the configured name, while the convergence waiter queries
routability by the configured name alone (the poll verdict depends only on
the configured names), and the two names always differ. -/
theorem vlanNetdevName_mismatch (networkCfg : SystemNetworkConfig)
    (v : SystemNetworkVLAN) (hv : v ∈ networkCfg.VLANs) (hn : v.Name ≠ "") :
    ("Name=vl" ++ v.Name) ∈ (vlanNetdevFile v).Contents
    ∧ v.Name ∈ waitQueriedNames networkCfg
    ∧ ("vl" ++ v.Name) ≠ v.Name
    ∧ (∀ (r r2 : String → Bool) (requireAll : Bool),
        (∀ n ∈ waitQueriedNames networkCfg, r n = r2 n) →
        pollCycleOK networkCfg r requireAll
          = pollCycleOK networkCfg r2 requireAll) := by
  refine ⟨?_, ?_, ?_, ?_⟩
  · simp [vlanNetdevFile]
  · unfold waitQueriedNames
    exact List.mem_append.mpr (Or.inr (List.mem_map.mpr ⟨v, hv, rfl⟩))
  · intro h
    have hd : ("vl" ++ v.Name).data = 'v' :: 'l' :: v.Name.data := rfl
    have h2 : ('v' :: 'l' :: v.Name.data).length = v.Name.data.length := by
      rw [← hd, h]
    simp at h2
    omega
  · intro r r2 requireAll h
    unfold pollCycleOK
    rw [categoryPasses_congr requireAll r r2 _
          (fun n hn2 => h n (List.mem_append.mpr (Or.inl
            (List.mem_append.mpr (Or.inl hn2))))),
        categoryPasses_congr requireAll r r2 _
          (fun n hn2 => h n (List.mem_append.mpr (Or.inl
            (List.mem_append.mpr (Or.inr hn2))))),
        categoryPasses_congr requireAll r r2 _
          (fun n hn2 => h n (List.mem_append.mpr (Or.inr hn2)))]

/-- Witness for C9 at the configuration holding one VLAN named v10. -/
theorem vlanNetdevName_mismatch_witness :
    ("Name=vl" ++ sampleVlan.Name) ∈ (vlanNetdevFile sampleVlan).Contents
    ∧ sampleVlan.Name ∈ waitQueriedNames sampleVlanConfig
    ∧ ("vl" ++ sampleVlan.Name) ≠ sampleVlan.Name
    ∧ (∀ (r r2 : String → Bool) (requireAll : Bool),
        (∀ n ∈ waitQueriedNames sampleVlanConfig, r n = r2 n) →
        pollCycleOK sampleVlanConfig r requireAll
          = pollCycleOK sampleVlanConfig r2 requireAll) :=
  vlanNetdevName_mismatch sampleVlanConfig sampleVlan (by decide) (by decide)
